import Mathlib

/-!
Verification of the quiz authoring core embedded from
`src/components/QuizEditor.tsx`: the content extractor, the knowledge-base
payload builder, the validation pipeline, scorecard synchronization and
detachment, question navigation and deletion, the coding language
exclusivity rule, and question-type changes with template synthesis.

Blocks are modelled with exactly the fields the embedded logic reads
(`type`, the inline `content` array, a direct `text` property, and the
presence of a block-level `id`); presentation-only fields (`props`,
`styles`, nested `children`) are never read by any embedded function and
are omitted.  JavaScript truthiness on strings ("" is falsy) and on
optional fields (`undefined`/`null` are falsy, `x || d` defaulting) is
translated explicitly at each site.
-/

/-- JavaScript `String.prototype.trim`: strip leading and trailing
whitespace.  Implemented by structural recursion on the character list so
that concrete instances evaluate. -/
def jsTrim (s : String) : String :=
  ⟨((s.data.dropWhile Char.isWhitespace).reverse.dropWhile
      Char.isWhitespace).reverse⟩

/-- One inline item of a block's `content` array: either a bare string or an
object carrying an optional `text` field. -/
inductive InlineItem where
  | str (s : String)
  | obj (text : Option String)
deriving DecidableEq

/-- `typeof item === 'string' ? item : (item.text || "")`. -/
def InlineItem.toText : InlineItem → String
  | .str s => s
  | .obj t => t.getD ""

/-- A content block, with only the fields the embedded logic reads. -/
structure Block where
  type : String
  content : Option (List InlineItem) := none
  text : Option String := none
  hasId : Bool := false
deriving DecidableEq

/-- Text contributed by a single block.  The source handles `paragraph`,
`heading`, the three list-item kinds and `codeBlock` with the same body
(join the text of the inline items), then falls back to a direct truthy
`text` property, else contributes `""`.  A falsy (empty) `text` property
also yields `""`, which coincides with returning the property itself. -/
def blockText (b : Block) : String :=
  if b.type == "paragraph" || b.type == "heading" || b.type == "bulletListItem"
      || b.type == "numberedListItem" || b.type == "checkListItem"
      || b.type == "codeBlock" then
    match b.content with
    | some items => String.join (items.map InlineItem.toText)
    | none => ""
  else
    match b.text with
    | some t => t
    | none => ""

/-- `extractTextFromBlocks`: empty input yields `""`; otherwise the per-block
texts are joined with newlines and the result is trimmed. -/
def extractTextFromBlocks (blocks : List Block) : String :=
  if blocks.isEmpty then ""
  else jsTrim (String.intercalate "\n" (blocks.map blockText))

/-- `config.questionType`. -/
inductive QuestionType where
  | objective
  | subjective
  | coding
deriving DecidableEq

/-- A scorecard id is either a numeric published identifier or a
session-local string identifier. -/
inductive ScorecardId where
  | num (n : Int)
  | str (s : String)
deriving DecidableEq

/-- One grading criterion of a scorecard. -/
structure ScorecardCriterion where
  name : String
  description : String
  minScore : Int
  maxScore : Int
deriving DecidableEq, Inhabited

/-- A scorecard template; `new` marks a scorecard created in this editing
session, `is_template` marks a built-in starter template. -/
structure ScorecardTemplate where
  id : ScorecardId
  name : String
  new : Bool
  is_template : Bool
  criteria : List ScorecardCriterion
deriving DecidableEq

/-- The per-question configuration.  Fields that the source guards with
`|| []` or optional-chaining are modelled as `Option`. -/
structure QuizQuestionConfig where
  inputType : String := "text"
  responseType : String := "chat"
  questionType : QuestionType := .objective
  correctAnswer : Option (List Block) := none
  scorecardData : Option ScorecardTemplate := none
  knowledgeBaseBlocks : Option (List Block) := none
  linkedMaterialIds : Option (List String) := none
  codingLanguages : Option (List String) := none
deriving DecidableEq

/-- One quiz question: id, prompt content blocks, and configuration. -/
structure QuizQuestion where
  id : String
  content : List Block
  config : QuizQuestionConfig
deriving DecidableEq

/-- The non-null payload produced by `getKnowledgeBaseContent`. -/
structure KnowledgeBaseContent where
  blocks : List Block
  linkedMaterialIds : List String
deriving DecidableEq

/-- `getKnowledgeBaseContent`: builds the `context` payload for save/publish,
returning `none` when there is neither non-empty block text nor any linked
material id. -/
def getKnowledgeBaseContent (config : QuizQuestionConfig) :
    Option KnowledgeBaseContent :=
  let knowledgeBaseBlocks := config.knowledgeBaseBlocks.getD []
  let linkedMaterialIds := config.linkedMaterialIds.getD []
  let hasNonEmptyBlocks : Bool :=
    !knowledgeBaseBlocks.isEmpty &&
      0 < (jsTrim (extractTextFromBlocks knowledgeBaseBlocks)).length
  let hasLinkedMaterials : Bool := !linkedMaterialIds.isEmpty
  if hasNonEmptyBlocks || hasLinkedMaterials then
    some { blocks := if hasNonEmptyBlocks then knowledgeBaseBlocks else []
           linkedMaterialIds :=
             if hasLinkedMaterials then linkedMaterialIds else [] }
  else
    none

/-- The knowledge-base payload as the claim states it: `none` exactly when
the trimmed extractable text is blank and the id list is empty; otherwise
the blocks field keeps the original list exactly when its text is
non-blank, and the id list is kept exactly when non-empty. -/
def knowledgeBaseSpec (config : QuizQuestionConfig) :
    Option KnowledgeBaseContent :=
  let kb := config.knowledgeBaseBlocks.getD []
  let lm := config.linkedMaterialIds.getD []
  if jsTrim (extractTextFromBlocks kb) = "" ∧ lm = [] then none
  else
    some { blocks := if jsTrim (extractTextFromBlocks kb) ≠ "" then kb else []
           linkedMaterialIds := if lm ≠ [] then lm else [] }

theorem string_length_pos_iff (s : String) : (0 < s.length) ↔ s ≠ "" := by
  cases s with
  | mk data =>
    constructor
    · intro h hEq
      rw [hEq] at h
      simp [String.length] at h
    · intro h
      rcases data with _ | ⟨c, cs⟩
      · exact absurd rfl h
      · simp [String.length]

theorem extractTextFromBlocks_nil : extractTextFromBlocks [] = "" := rfl

theorem jsTrim_empty : jsTrim "" = "" := rfl

/-- C10: the knowledge-base payload builder used by save and publish returns
`none` exactly when the knowledge-base blocks have no extractable text
(after trimming) and the linked-material id list is empty; otherwise the
blocks field is the original list when its extracted text is non-blank and
`[]` otherwise, and the id list is the original when non-empty and `[]`
otherwise.  In particular media-only knowledge-base blocks (no text) are
dropped from the payload. -/
theorem knowledge_base_content_spec (config : QuizQuestionConfig) :
    getKnowledgeBaseContent config = knowledgeBaseSpec config := by
  unfold getKnowledgeBaseContent knowledgeBaseSpec
  by_cases hkb : config.knowledgeBaseBlocks.getD [] = []
  · simp only [hkb]
    by_cases hlm : config.linkedMaterialIds.getD [] = []
    · simp [hlm, extractTextFromBlocks_nil, jsTrim_empty]
    · simp [hlm, extractTextFromBlocks_nil, jsTrim_empty]
  · have hkbE : (config.knowledgeBaseBlocks.getD []).isEmpty = false := by
      simpa [List.isEmpty_iff] using hkb
    by_cases htext :
        jsTrim (extractTextFromBlocks (config.knowledgeBaseBlocks.getD [])) = ""
    · have hlen :
          ¬ (0 < (jsTrim (extractTextFromBlocks
              (config.knowledgeBaseBlocks.getD []))).length) := by
        simpa [string_length_pos_iff] using htext
      by_cases hlm : config.linkedMaterialIds.getD [] = []
      · simp [hkbE, hlen, htext, hlm]
      · simp [hkbE, hlen, htext, hlm]
    · have hlen :
          0 < (jsTrim (extractTextFromBlocks
              (config.knowledgeBaseBlocks.getD []))).length := by
        rw [string_length_pos_iff]
        exact htext
      by_cases hlm : config.linkedMaterialIds.getD [] = []
      · simp [hkbE, hlen, htext, hlm]
      · simp [hkbE, hlen, htext, hlm]

/-- The editor tabs. -/
inductive Tab where
  | question
  | answer
  | scorecard
  | knowledge
deriving DecidableEq

/-- The field highlighted by `highlightField` on a validation failure. -/
inductive HighlightField where
  | question
  | answer
  | codingLanguage
deriving DecidableEq

/-- Whether a block is a media (image/audio/video) block. -/
def isMediaBlock (b : Block) : Bool :=
  b.type == "image" || b.type == "audio" || b.type == "video"

/-- `validateQuestionContent`: empty input is invalid; otherwise non-blank
extracted text, or failing that, the presence of a media block. -/
def validateQuestionContent (content : List Block) : Bool :=
  if content.isEmpty then false
  else
    let textContent := extractTextFromBlocks content
    if 0 < (jsTrim textContent).length then true
    else content.any isMediaBlock

/-- `validateCorrectAnswer`: the correct answer exists, is non-empty, and
its extracted text is non-blank. -/
def validateCorrectAnswer (questionConfig : QuizQuestionConfig) : Bool :=
  match questionConfig.correctAnswer with
  | some answer =>
    if !answer.isEmpty then
      0 < (jsTrim (extractTextFromBlocks answer)).length
    else false
  | none => false

/-- `validateScorecard`: a scorecard is attached and has at least one
criterion. -/
def validateScorecard (questionConfig : QuizQuestionConfig) : Bool :=
  match questionConfig.scorecardData with
  | some sc => !sc.criteria.isEmpty
  | none => false

/-- Which field of a criterion is blank. -/
inductive CriterionField where
  | name
  | description
deriving DecidableEq

/-- The loop of `validateScorecardCriteria`: per criterion, first a falsy or
whitespace-only name, then a falsy or whitespace-only description; the first
offender is reported with its index and field. -/
def firstBlankCriterion :
    List ScorecardCriterion → Option (Nat × CriterionField)
  | [] => none
  | c :: rest =>
    if jsTrim c.name = "" then some (0, .name)
    else if jsTrim c.description = "" then some (0, .description)
    else (firstBlankCriterion rest).map fun p => (p.1 + 1, p.2)

/-- The pure content of `validateScorecardCriteria`: a missing scorecard or
one that is not session-new (`!scorecard.new`) is always valid; otherwise
the first blank criterion is the failure. -/
def scorecardCriteriaFailure (scorecard : Option ScorecardTemplate) :
    Option (Nat × CriterionField) :=
  match scorecard with
  | none => none
  | some sc => if !sc.new then none else firstBlankCriterion sc.criteria

/-- Which check of the validation pipeline failed. -/
inductive CheckKind where
  | emptyContent
  | noCodingLanguages
  | emptyCorrectAnswer
  | missingScorecard
  | blankCriterion (idx : Nat) (field : CriterionField)
deriving DecidableEq

/-- What a failing check reports: the tab the code switches to (if any),
the field it highlights (if any), and the error title passed to
`onValidationError`. -/
structure FailDetail where
  kind : CheckKind
  setTab : Option Tab
  highlight : Option HighlightField
  errorTitle : String
deriving DecidableEq

/-- The per-question body of the `validateAllQuestions` loop; each early
`return false` site of the source is recorded as the failure it reports. -/
def questionCheck (question : QuizQuestion) : Option FailDetail :=
  if validateQuestionContent question.content = false then
    some ⟨.emptyContent, some .question, some .question, "Empty Question"⟩
  else if question.config.questionType = .coding ∧
      (question.config.codingLanguages.getD []).isEmpty = true then
    some ⟨.noCodingLanguages, none, some .codingLanguage,
      "Missing Coding Languages"⟩
  else if (question.config.questionType = .objective ∨
        question.config.questionType = .coding) ∧
      validateCorrectAnswer question.config = false then
    some ⟨.emptyCorrectAnswer, some .answer, some .answer,
      "Empty Correct Answer"⟩
  else if question.config.questionType = .subjective ∧
      validateScorecard question.config = false then
    some ⟨.missingScorecard, some .scorecard, none, "Missing Scorecard"⟩
  else if question.config.questionType = .subjective ∧
      question.config.scorecardData.isSome = true then
    match scorecardCriteriaFailure question.config.scorecardData with
    | some (idx, field) =>
      some ⟨.blankCriterion idx field, some .scorecard, none,
        "Empty Scorecard Parameter"⟩
    | none => none
  else none

/-- Result of the validation pipeline: success, the empty-session failure
(no question index), or a failure at a question index. -/
inductive VResult where
  | ok
  | noQuestions
  | fail (index : Nat) (detail : FailDetail)
deriving DecidableEq

/-- The `for` loop of `validateAllQuestions`, carrying the index of the
question under inspection. -/
def validateLoop : List QuizQuestion → Nat → VResult
  | [], _ => .ok
  | q :: rest, i =>
    match questionCheck q with
    | some d => .fail i d
    | none => validateLoop rest (i + 1)

/-- `validateAllQuestions`, as the pure result it computes: the empty-session
check, then the per-question checks in sequence order. -/
def validateAllQuestions (questions : List QuizQuestion) : VResult :=
  if questions.isEmpty then .noQuestions
  else validateLoop questions 0

/-- Claim-modelled content check: extractable text non-blank, or an
image/audio/video block present. -/
def specContentOk (content : List Block) : Bool :=
  (jsTrim (extractTextFromBlocks content) != "") || content.any isMediaBlock

/-- Claim-modelled check 4: `correctAnswer` present with non-blank
extractable text. -/
def specCorrectAnswerOk (config : QuizQuestionConfig) : Bool :=
  match config.correctAnswer with
  | some answer => jsTrim (extractTextFromBlocks answer) != ""
  | none => false

/-- Claim-modelled check 5a: `scorecardData` present with at least one
criterion. -/
def specScorecardOk (config : QuizQuestionConfig) : Bool :=
  match config.scorecardData with
  | some sc => 0 < sc.criteria.length
  | none => false

/-- Claim-modelled check 5b: only for a session-new scorecard, the first
criterion with a blank name or description, the blank name reported in
preference to the blank description. -/
def specCriteriaFailure (sc : ScorecardTemplate) :
    Option (Nat × CriterionField) :=
  if sc.new then
    match sc.criteria.findIdx?
        (fun c => jsTrim c.name == "" || jsTrim c.description == "") with
    | some j =>
      some (j, if jsTrim ((sc.criteria.getD j default).name) = ""
        then CriterionField.name else CriterionField.description)
    | none => none
  else none

/-- Claim-modelled per-question checks, tried in the claim's order
(2) content, (3) languages, (4) answer, (5) scorecard then criteria. -/
def specQuestionFailure (q : QuizQuestion) : Option CheckKind :=
  if specContentOk q.content = false then some .emptyContent
  else if q.config.questionType = .coding ∧
      (q.config.codingLanguages.getD []).isEmpty = true then
    some .noCodingLanguages
  else if (q.config.questionType = .objective ∨
        q.config.questionType = .coding) ∧
      specCorrectAnswerOk q.config = false then some .emptyCorrectAnswer
  else if q.config.questionType = .subjective ∧
      specScorecardOk q.config = false then some .missingScorecard
  else if q.config.questionType = .subjective ∧
      q.config.scorecardData.isSome = true then
    match q.config.scorecardData with
    | some sc => (specCriteriaFailure sc).map fun p => .blankCriterion p.1 p.2
    | none => none
  else none

/-- Tab each failing check routes to (the claim names `scorecard` for a
missing scorecard and `answer` for a blank correct answer; the remaining
entries record what the source does at the other failure sites). -/
def specRequiredTab : CheckKind → Option Tab
  | .emptyContent => some .question
  | .noCodingLanguages => none
  | .emptyCorrectAnswer => some .answer
  | .missingScorecard => some .scorecard
  | .blankCriterion _ _ => some .scorecard

/-- Field each failing check highlights. -/
def specHighlight : CheckKind → Option HighlightField
  | .emptyContent => some .question
  | .noCodingLanguages => some .codingLanguage
  | .emptyCorrectAnswer => some .answer
  | .missingScorecard => none
  | .blankCriterion _ _ => none

/-- Error title each failing check reports. -/
def specErrorTitle : CheckKind → String
  | .emptyContent => "Empty Question"
  | .noCodingLanguages => "Missing Coding Languages"
  | .emptyCorrectAnswer => "Empty Correct Answer"
  | .missingScorecard => "Missing Scorecard"
  | .blankCriterion _ _ => "Empty Scorecard Parameter"

/-- Assemble the detail of a failing check. -/
def specFailDetail (k : CheckKind) : FailDetail :=
  ⟨k, specRequiredTab k, specHighlight k, specErrorTitle k⟩

/-- The validation pipeline as the claim states it: the empty-session check
first, then the first question (in sequence order) with a failing check
wins. -/
def validationSpec (questions : List QuizQuestion) : VResult :=
  if questions = [] then .noQuestions
  else
    match questions.enum.findSome?
        (fun p => (specQuestionFailure p.2).map fun k => (p.1, k)) with
    | none => .ok
    | some (i, k) => .fail i (specFailDetail k)

theorem validateQuestionContent_eq_spec (content : List Block) :
    validateQuestionContent content = specContentOk content := by
  unfold validateQuestionContent specContentOk
  by_cases hE : content.isEmpty
  · have : content = [] := by simpa [List.isEmpty_iff] using hE
    subst this
    simp [extractTextFromBlocks_nil, jsTrim_empty]
  · by_cases hT : jsTrim (extractTextFromBlocks content) = ""
    · have hlen : ¬ (0 < (jsTrim (extractTextFromBlocks content)).length) := by
        simpa [string_length_pos_iff] using hT
      simp [hE, hT, hlen]
    · have hlen : 0 < (jsTrim (extractTextFromBlocks content)).length := by
        rw [string_length_pos_iff]; exact hT
      simp [hE, hT, hlen]

theorem validateCorrectAnswer_eq_spec (config : QuizQuestionConfig) :
    validateCorrectAnswer config = specCorrectAnswerOk config := by
  unfold validateCorrectAnswer specCorrectAnswerOk
  match hca : config.correctAnswer with
  | none => rfl
  | some answer =>
    by_cases hE : answer.isEmpty
    · have : answer = [] := by simpa [List.isEmpty_iff] using hE
      subst this
      simp [extractTextFromBlocks_nil, jsTrim_empty]
    · by_cases hT : jsTrim (extractTextFromBlocks answer) = ""
      · have hlen : ¬ (0 < (jsTrim (extractTextFromBlocks answer)).length) := by
          simpa [string_length_pos_iff] using hT
        simp [hE, hT, hlen]
      · have hlen : 0 < (jsTrim (extractTextFromBlocks answer)).length := by
          rw [string_length_pos_iff]; exact hT
        simp [hE, hT, hlen]

theorem validateScorecard_eq_spec (config : QuizQuestionConfig) :
    validateScorecard config = specScorecardOk config := by
  unfold validateScorecard specScorecardOk
  match config.scorecardData with
  | none => rfl
  | some sc =>
    by_cases hE : sc.criteria.isEmpty
    · have : sc.criteria = [] := by simpa [List.isEmpty_iff] using hE
      simp [hE, this]
    · have : sc.criteria ≠ [] := by simpa [List.isEmpty_iff] using hE
      have hlen : 0 < sc.criteria.length := List.length_pos.mpr this
      simp [hE, hlen]

theorem firstBlankCriterion_eq_spec (cs : List ScorecardCriterion) :
    firstBlankCriterion cs =
      match cs.findIdx?
          (fun c => jsTrim c.name == "" || jsTrim c.description == "") with
      | some j =>
        some (j, if jsTrim ((cs.getD j default).name) = ""
          then CriterionField.name else CriterionField.description)
      | none => none := by
  induction cs with
  | nil => rfl
  | cons c rest ih =>
    by_cases hn : jsTrim c.name = ""
    · simp [firstBlankCriterion, hn, List.findIdx?_cons]
    · by_cases hd : jsTrim c.description = ""
      · simp [firstBlankCriterion, hn, hd, List.findIdx?_cons]
      · simp only [firstBlankCriterion, hn, hd, if_false, List.findIdx?_cons]
        have hcfalse :
            (jsTrim c.name == "" || jsTrim c.description == "") = false := by
          simp [hn, hd]
        rw [hcfalse]
        simp only [Bool.false_eq_true, if_false]
        rw [ih]
        cases hfi : rest.findIdx?
            (fun c => jsTrim c.name == "" || jsTrim c.description == "") with
        | none => simp [hfi]
        | some j => simp [hfi, List.getD_cons_succ]

theorem scorecardCriteriaFailure_eq_spec (sc : ScorecardTemplate) :
    scorecardCriteriaFailure (some sc) = specCriteriaFailure sc := by
  unfold scorecardCriteriaFailure specCriteriaFailure
  by_cases hn : sc.new
  · simp [hn, firstBlankCriterion_eq_spec]
  · simp [hn]

theorem questionCheck_eq_spec (q : QuizQuestion) :
    questionCheck q = (specQuestionFailure q).map specFailDetail := by
  unfold questionCheck specQuestionFailure
  rw [validateQuestionContent_eq_spec, validateCorrectAnswer_eq_spec,
      validateScorecard_eq_spec]
  split_ifs with h1 h2 h3 h4 h5
  · rfl
  · rfl
  · rfl
  · rfl
  · cases hsd : q.config.scorecardData with
    | none =>
      rw [hsd] at h5
      simp at h5
    | some sc =>
      rw [scorecardCriteriaFailure_eq_spec sc]
      cases hcf : specCriteriaFailure sc with
      | none => simp [hcf]
      | some p =>
        cases p with
        | mk idx field =>
          simp [hcf, specFailDetail, specRequiredTab, specHighlight,
            specErrorTitle]
  · rfl

theorem validateLoop_eq_spec (qs : List QuizQuestion) (n : Nat) :
    validateLoop qs n =
      match (qs.enumFrom n).findSome?
          (fun p => (specQuestionFailure p.2).map fun k => (p.1, k)) with
      | none => VResult.ok
      | some (i, k) => VResult.fail i (specFailDetail k) := by
  induction qs generalizing n with
  | nil => rfl
  | cons q rest ih =>
    simp only [validateLoop, List.enumFrom, List.findSome?]
    rw [questionCheck_eq_spec q]
    cases hs : specQuestionFailure q with
    | some k => simp [hs]
    | none =>
      simp only [hs, Option.map_none']
      exact ih (n + 1)

/-- C1: `validateBeforePublish` checks in sequence order with the first
failure winning: an empty sequence fails with no question index; otherwise
each question is checked in order for (2) content non-emptiness (non-blank
extractable text or a media block), (3) for coding questions non-empty
`codingLanguages`, (4) for objective and coding questions a present correct
answer with non-blank extractable text, (5) for subjective questions a
scorecard with at least one criterion and then, only when the scorecard is
session-new, non-blank name and description for every criterion.  A
subjective question lacking a scorecard fails at that question's index with
required tab `scorecard`; a coding question with languages set but a blank
correct answer fails with required tab `answer`; a session passing all
checks succeeds. -/
theorem validate_before_publish_spec (questions : List QuizQuestion) :
    validateAllQuestions questions = validationSpec questions := by
  unfold validateAllQuestions validationSpec
  by_cases h : questions = []
  · simp [h]
  · have hE : questions.isEmpty = false := by
      simpa [List.isEmpty_iff] using h
    simp only [hE, h, if_false, Bool.false_eq_true]
    have := validateLoop_eq_spec questions 0
    simpa [List.enum] using this

/-- A paragraph block with a single text run. -/
def textBlock (s : String) : Block :=
  { type := "paragraph", content := some [InlineItem.obj (some s)] }

/-- A scorecard with one completed criterion. -/
def completedScorecard (isNew : Bool) (sid : ScorecardId) : ScorecardTemplate :=
  { id := sid, name := "Rubric", new := isNew, is_template := false,
    criteria := [⟨"Clarity", "Is the answer clear", 1, 5⟩] }

example :
    validateAllQuestions
      [{ id := "q1", content := [textBlock "Discuss justice."],
         config := { questionType := .subjective, responseType := "report" } }]
      = VResult.fail 0 (specFailDetail .missingScorecard) := by decide

example :
    validateAllQuestions
      [{ id := "q1", content := [textBlock "Write a loop."],
         config := { questionType := .coding,
                     codingLanguages := some ["python"] } }]
      = VResult.fail 0 (specFailDetail .emptyCorrectAnswer) := by decide

example :
    validateAllQuestions
      [{ id := "q1", content := [textBlock "Pick one."],
         config := { questionType := .objective,
                     correctAnswer := some [textBlock "42"] } },
       { id := "q2", content := [textBlock "Discuss justice."],
         config := { questionType := .subjective, responseType := "report",
                     scorecardData :=
                       some (completedScorecard true (.str "s1")) } }]
      = VResult.ok := by decide

/-- The component state read and written by the effectful operations: the
question sequence, current index, active tab, the transiently highlighted
field, and the (title-only) log of errors reported via `onValidationError`.
The auto-clear of a highlight after a bounded delay is not modelled. -/
structure EditorState where
  questions : List QuizQuestion
  currentQuestionIndex : Nat
  activeEditorTab : Tab
  highlightedField : Option HighlightField := none
  validationErrors : List String := []
deriving DecidableEq

/-- The `for` loop of `validateAllQuestions` with its state effects: each
failure site performs `setCurrentQuestionIndex`, possibly
`setActiveEditorTab` and `highlightField`, reports its error title and
returns false.  For a subjective question with a scorecard the source calls
`setCurrentQuestionIndex(i)` *before* validating the criteria, so that
write happens even when the criteria are valid and the loop continues. -/
def validateRunLoop :
    List QuizQuestion → Nat → EditorState → Bool × EditorState
  | [], _, s => (true, s)
  | q :: rest, i, s =>
    if validateQuestionContent q.content = false then
      (false,
        { s with
            currentQuestionIndex := i,
            activeEditorTab := .question,
            highlightedField := some .question,
            validationErrors := s.validationErrors ++ ["Empty Question"] })
    else if q.config.questionType = .coding ∧
        (q.config.codingLanguages.getD []).isEmpty = true then
      (false,
        { s with
            currentQuestionIndex := i,
            highlightedField := some .codingLanguage,
            validationErrors :=
              s.validationErrors ++ ["Missing Coding Languages"] })
    else if (q.config.questionType = .objective ∨
          q.config.questionType = .coding) ∧
        validateCorrectAnswer q.config = false then
      (false,
        { s with
            currentQuestionIndex := i,
            activeEditorTab := .answer,
            highlightedField := some .answer,
            validationErrors :=
              s.validationErrors ++ ["Empty Correct Answer"] })
    else if q.config.questionType = .subjective ∧
        validateScorecard q.config = false then
      (false,
        { s with
            currentQuestionIndex := i,
            activeEditorTab := .scorecard,
            validationErrors := s.validationErrors ++ ["Missing Scorecard"] })
    else if q.config.questionType = .subjective ∧
        q.config.scorecardData.isSome = true then
      match scorecardCriteriaFailure q.config.scorecardData with
      | some _ =>
        (false,
          { s with
              currentQuestionIndex := i,
              activeEditorTab := .scorecard,
              validationErrors :=
                s.validationErrors ++ ["Empty Scorecard Parameter"] })
      | none =>
        validateRunLoop rest (i + 1) { s with currentQuestionIndex := i }
    else validateRunLoop rest (i + 1) s

/-- `validateBeforePublish` with its effects on the component state. -/
def validateAllQuestionsRun (s : EditorState) : Bool × EditorState :=
  if s.questions.isEmpty then
    (false,
      { s with validationErrors := s.validationErrors ++ ["No Questions"] })
  else validateRunLoop s.questions 0 s

/-- Index of the last subjective question carrying a scorecard (the last
question at which the loop's unconditional `setCurrentQuestionIndex` fires
on a fully valid sequence). -/
def lastSubjectiveWithScorecard : List QuizQuestion → Option Nat
  | [] => none
  | q :: rest =>
    match lastSubjectiveWithScorecard rest with
    | some j => some (j + 1)
    | none =>
      if q.config.questionType = .subjective ∧
          q.config.scorecardData.isSome = true then some 0
      else none

/-- A session whose two questions both pass every validation check, with the
pointer on the first question. -/
def fullyValidState : EditorState :=
  { questions :=
      [{ id := "q1", content := [textBlock "Pick one."],
         config := { questionType := .objective,
                     correctAnswer := some [textBlock "42"] } },
       { id := "q2", content := [textBlock "Discuss justice."],
         config := { questionType := .subjective, responseType := "report",
                     scorecardData :=
                       some (completedScorecard true (.str "s1")) } }],
    currentQuestionIndex := 0,
    activeEditorTab := .question }

/-- C2 counterexample: on a session in which every question passes every
check, `validateBeforePublish` returns true but does *not* leave
`currentIndex` unchanged — the loop's unconditional
`setCurrentQuestionIndex(i)` for a subjective question with a scorecard
fires even though criteria validation then succeeds, so the pointer moves
from question 0 to question 1. -/
theorem validate_success_moves_index :
    (∀ q ∈ fullyValidState.questions, questionCheck q = none) ∧
    (validateAllQuestionsRun fullyValidState).1 = true ∧
    (validateAllQuestionsRun fullyValidState).2.currentQuestionIndex ≠
      fullyValidState.currentQuestionIndex := by
  refine ⟨by decide, by decide, by decide⟩

theorem questionCheck_none_inv (q : QuizQuestion)
    (hq : questionCheck q = none) :
    validateQuestionContent q.content = true ∧
    ¬ (q.config.questionType = .coding ∧
        (q.config.codingLanguages.getD []).isEmpty = true) ∧
    ¬ ((q.config.questionType = .objective ∨
          q.config.questionType = .coding) ∧
        validateCorrectAnswer q.config = false) ∧
    ¬ (q.config.questionType = .subjective ∧
        validateScorecard q.config = false) ∧
    (q.config.questionType = .subjective ∧
        q.config.scorecardData.isSome = true →
      scorecardCriteriaFailure q.config.scorecardData = none) := by
  unfold questionCheck at hq
  split_ifs at hq with h1 h2 h3 h4 h5
  · have h1b : validateQuestionContent q.content = true := by
      cases hb : validateQuestionContent q.content with
      | true => rfl
      | false => exact absurd hb h1
    refine ⟨h1b, h2, h3, h4, fun _ => ?_⟩
    cases hcr : scorecardCriteriaFailure q.config.scorecardData with
    | none => rfl
    | some p =>
      rw [hcr] at hq
      cases p with
      | mk idx field => simp at hq
  · have h1b : validateQuestionContent q.content = true := by
      cases hb : validateQuestionContent q.content with
      | true => rfl
      | false => exact absurd hb h1
    exact ⟨h1b, h2, h3, h4, fun hc => absurd hc h5⟩

theorem validateRunLoop_all_valid (qs : List QuizQuestion) :
    ∀ (n : Nat) (s : EditorState), (∀ q ∈ qs, questionCheck q = none) →
      validateRunLoop qs n s =
        (true,
          { s with
              currentQuestionIndex :=
                (match lastSubjectiveWithScorecard qs with
                 | some j => n + j
                 | none => s.currentQuestionIndex) }) := by
  induction qs with
  | nil =>
    intro n s _
    simp [validateRunLoop, lastSubjectiveWithScorecard]
  | cons q rest ih =>
    intro n s hall
    have hq := questionCheck_none_inv q (hall q (List.mem_cons_self q rest))
    obtain ⟨h1, h2, h3, h4, h5cr⟩ := hq
    have hrest : ∀ q ∈ rest, questionCheck q = none := fun p hp =>
      hall p (List.mem_cons_of_mem q hp)
    have h1f : ¬ (validateQuestionContent q.content = false) := by
      simp [h1]
    by_cases h5 : q.config.questionType = .subjective ∧
        q.config.scorecardData.isSome = true
    · rw [validateRunLoop, if_neg h1f, if_neg h2, if_neg h3, if_neg h4,
        if_pos h5, h5cr h5]
      rw [ih (n + 1) _ hrest]
      rw [lastSubjectiveWithScorecard]
      cases hls : lastSubjectiveWithScorecard rest with
      | some j =>
        simp only [hls]
        have : n + 1 + j = n + (j + 1) := by omega
        rw [this]
      | none => simp [hls, h5]
    · rw [validateRunLoop, if_neg h1f, if_neg h2, if_neg h3, if_neg h4,
        if_neg h5]
      rw [ih (n + 1) s hrest]
      rw [lastSubjectiveWithScorecard]
      cases hls : lastSubjectiveWithScorecard rest with
      | some j =>
        simp only [hls]
        have : n + 1 + j = n + (j + 1) := by omega
        rw [this]
      | none => simp [hls, h5]

/-- C2 amended: on a session in which every question passes every check,
`validateBeforePublish` returns true and leaves the question sequence, the
active tab, the highlight and the error log unchanged; `currentIndex` is
also unchanged unless the session contains a subjective question with a
scorecard, in which case it is set to the index of the last such question
(the loop's unconditional `setCurrentQuestionIndex` before criteria
validation). -/
theorem validate_success_effects (s : EditorState)
    (hne : s.questions ≠ [])
    (hall : ∀ q ∈ s.questions, questionCheck q = none) :
    validateAllQuestionsRun s =
      (true,
        { s with
            currentQuestionIndex :=
              (lastSubjectiveWithScorecard s.questions).getD
                s.currentQuestionIndex }) := by
  unfold validateAllQuestionsRun
  have hE : s.questions.isEmpty = false := by
    simpa [List.isEmpty_iff] using hne
  simp only [hE, Bool.false_eq_true, if_false]
  rw [validateRunLoop_all_valid s.questions 0 s hall]
  cases hls : lastSubjectiveWithScorecard s.questions with
  | some j => simp [hls]
  | none => simp [hls]

/-- Witness for the amended C2 theorem at a concrete fully valid session. -/
theorem validate_success_effects_witness :
    (validateAllQuestionsRun fullyValidState).1 = true ∧
    (validateAllQuestionsRun fullyValidState).2 =
      { fullyValidState with currentQuestionIndex := 1 } := by
  have h := validate_success_effects fullyValidState (by decide) (by decide)
  rw [h]
  exact ⟨rfl, by decide⟩

/-- The state read and written by `removeScorecardFromSchoolScoreboards`. -/
structure ScorecardPoolState where
  questions : List QuizQuestion
  currentQuestionIndex : Nat
  schoolScorecards : List ScorecardTemplate
deriving DecidableEq

/-- `removeScorecardFromSchoolScoreboards`: reads the active question's
scorecard; if absent the operation returns early.  Otherwise it removes the
scorecard from the school pool when it is session-new, and clears the
scorecard reference of *every* question whose scorecard id matches the
active question's scorecard id. -/
def removeScorecardFromSchoolScoreboards (s : ScorecardPoolState) :
    ScorecardPoolState :=
  match (s.questions[s.currentQuestionIndex]?).bind
      (fun q => q.config.scorecardData) with
  | none => s
  | some scorecardForQuestion =>
    let updatedScorecards :=
      if scorecardForQuestion.new then
        s.schoolScorecards.filter
          (fun scorecard => !(scorecard.id == scorecardForQuestion.id))
      else s.schoolScorecards
    let updatedQuestions :=
      s.questions.map fun q =>
        match q.config.scorecardData with
        | some d =>
          if d.id = scorecardForQuestion.id then
            { q with config := { q.config with scorecardData := none } }
          else q
        | none => q
    { s with
        questions := updatedQuestions,
        schoolScorecards := updatedScorecards }

/-- A session-new scorecard shared by two questions. -/
def sharedNewScorecard : ScorecardTemplate := completedScorecard true (.str "s1")

/-- First question referencing the shared session-new scorecard. -/
def refQ1 : QuizQuestion :=
  { id := "q1", content := [textBlock "Discuss justice."],
    config := { questionType := .subjective, responseType := "report",
                scorecardData := some sharedNewScorecard } }

/-- Second question referencing the shared session-new scorecard. -/
def refQ2 : QuizQuestion :=
  { id := "q2", content := [textBlock "Discuss mercy."],
    config := { questionType := .subjective, responseType := "report",
                scorecardData := some sharedNewScorecard } }

/-- A session whose two subjective questions reference the same session-new
scorecard, with the pointer on the first question. -/
def twoRefState : ScorecardPoolState :=
  { questions := [refQ1, refQ2],
    currentQuestionIndex := 0,
    schoolScorecards := [sharedNewScorecard] }

/-- C3 counterexample: detaching from the active question (index 0) also
clears the scorecard reference of question 1, which the claim says is left
unchanged. -/
theorem detach_clears_other_question :
    ((removeScorecardFromSchoolScoreboards twoRefState).questions[1]?).map
        (fun q => q.config.scorecardData) = some none ∧
    (twoRefState.questions[1]?).map (fun q => q.config.scorecardData) =
      some (some sharedNewScorecard) := by
  refine ⟨by decide, by decide⟩

/-- C3 amended: `detachAndMaybeDelete` clears the scorecard reference of
*every* question whose scorecard id equals the active question's scorecard
id (not only the active question), so the scorecard's reference count across
the session drops to zero; it removes the scorecard from the registry pool
exactly when the scorecard is session-new, and a scorecard that is not
session-new (in particular a published one) is never removed from the
pool. -/
theorem detach_and_maybe_delete_effects (s : ScorecardPoolState)
    (qa : QuizQuestion) (sc : ScorecardTemplate)
    (hq : s.questions[s.currentQuestionIndex]? = some qa)
    (hsc : qa.config.scorecardData = some sc) :
    (∀ (i : Nat) (q : QuizQuestion), s.questions[i]? = some q →
      (removeScorecardFromSchoolScoreboards s).questions[i]? =
        some (match q.config.scorecardData with
              | some d =>
                if d.id = sc.id then
                  { q with config := { q.config with scorecardData := none } }
                else q
              | none => q)) ∧
    (∀ q2 ∈ (removeScorecardFromSchoolScoreboards s).questions,
      ∀ d, q2.config.scorecardData = some d → d.id ≠ sc.id) ∧
    (sc.new = false →
      (removeScorecardFromSchoolScoreboards s).schoolScorecards =
        s.schoolScorecards) ∧
    (sc.new = true →
      (removeScorecardFromSchoolScoreboards s).schoolScorecards =
        s.schoolScorecards.filter (fun t => !(t.id == sc.id))) := by
  have hbind : (s.questions[s.currentQuestionIndex]?).bind
      (fun q => q.config.scorecardData) = some sc := by
    rw [hq]
    simp [hsc]
  refine ⟨?_, ?_, ?_, ?_⟩
  · intro i q hqi
    unfold removeScorecardFromSchoolScoreboards
    rw [hbind]
    simp only [List.getElem?_map, hqi, Option.map_some']
  · intro q2 hmem d hd
    unfold removeScorecardFromSchoolScoreboards at hmem
    rw [hbind] at hmem
    simp only [List.mem_map] at hmem
    obtain ⟨q0, _, hq0⟩ := hmem
    split at hq0
    · rename_i d0 heq
      by_cases hid : d0.id = sc.id
      · rw [if_pos hid] at hq0
        subst hq0
        simp at hd
      · rw [if_neg hid] at hq0
        subst hq0
        rw [heq] at hd
        injection hd with hdd
        subst hdd
        exact hid
    · rename_i heq
      subst hq0
      rw [heq] at hd
      exact absurd hd (by simp)
  · intro hnew
    unfold removeScorecardFromSchoolScoreboards
    rw [hbind]
    simp [hnew]
  · intro hnew
    unfold removeScorecardFromSchoolScoreboards
    rw [hbind]
    simp [hnew]

/-- Witness for the amended C3 theorem at the concrete two-reference
session: both references are cleared and the session-new scorecard leaves
the pool. -/
theorem detach_and_maybe_delete_effects_witness :
    ((removeScorecardFromSchoolScoreboards twoRefState).questions[0]?).map
        (fun q => q.config.scorecardData) = some none ∧
    (removeScorecardFromSchoolScoreboards twoRefState).schoolScorecards
      = [] := by
  have h := detach_and_maybe_delete_effects twoRefState refQ1
    sharedNewScorecard (by decide) (by decide)
  refine ⟨?_, ?_⟩
  · have h0 := h.1 0 refQ1 (by decide)
    rw [h0]
    decide
  · have h3 := h.2.2.2 (by decide)
    rw [h3]
    decide

/-- A criterion as returned by the org-scorecards endpoint. -/
structure APIScorecardCriterion where
  name : String
  description : String
  min_score : Int
  max_score : Int
deriving DecidableEq

/-- A scorecard resource as returned by the org-scorecards endpoint. -/
structure APIScorecard where
  id : Int
  title : String
  criteria : List APIScorecardCriterion
deriving DecidableEq

/-- The transform applied to each fetched scorecard: numeric id, not a
template, not session-new. -/
def transformAPIScorecard (scorecard : APIScorecard) : ScorecardTemplate :=
  { id := .num scorecard.id, name := scorecard.title,
    is_template := false, new := false,
    criteria := scorecard.criteria.map fun criterion =>
      { name := criterion.name, description := criterion.description,
        maxScore := criterion.max_score, minScore := criterion.min_score } }

/-- The optional `context` object of a task question resource. -/
structure APIContext where
  blocks : Option (List Block) := none
  linkedMaterialIds : Option (List String) := none
deriving DecidableEq

/-- A question resource as returned by the task endpoint. -/
structure APIQuestionResponse where
  id : Int
  type : QuestionType
  input_type : Option String := none
  response_type : String := "chat"
  blocks : Option (List Block) := none
  answer : Option (List Block) := none
  scorecard_id : Option Int := none
  context : Option APIContext := none
  coding_languages : Option (List String) := none
deriving DecidableEq

/-- The task resource: only the `questions` list is read by the loader. -/
structure APITask where
  questions : Option (List APIQuestionResponse) := none
deriving DecidableEq

/-- `parseInt(sc.id)`: a numeric id parses to itself, a string id to its
decimal value when it is a decimal numeral (a UUID parses to no number). -/
def parseScorecardId : ScorecardId → Option Int
  | .num n => some n
  | .str s => s.toInt?

/-- The per-question mapping of the task fetch (`data.questions.map`):
answer blocks taken as-is when present (else a default empty paragraph), a
numeric scorecard reference resolved against the already-loaded scorecard
pool, context blocks and linked-material ids extracted when present. -/
def mapAPIQuestion (availableScorecards : List ScorecardTemplate)
    (question : APIQuestionResponse) : QuizQuestion :=
  let correctAnswer :=
    match question.answer with
    | some a => a
    | none =>
      [{ type := "paragraph", content := some [InlineItem.obj (some "")] }]
  let scorecardData :=
    match question.scorecard_id with
    | some sid =>
      if sid ≠ 0 ∧ 0 < availableScorecards.length then
        match availableScorecards.find?
            (fun sc => parseScorecardId sc.id == some sid) with
        | some matching =>
          some { id := matching.id, name := matching.name, new := false,
                 is_template := false, criteria := matching.criteria }
        | none => none
      else none
    | none => none
  { id := toString question.id,
    content := question.blocks.getD [],
    config :=
      { inputType :=
          (match question.input_type with
           | some t => if t = "" then "text" else t
           | none => "text"),
        responseType := question.response_type,
        correctAnswer := some correctAnswer,
        questionType := question.type,
        scorecardData := scorecardData,
        knowledgeBaseBlocks :=
          some ((question.context.bind (fun c => c.blocks)).getD []),
        linkedMaterialIds :=
          some ((question.context.bind (fun c => c.linkedMaterialIds)).getD []),
        codingLanguages := some (question.coding_languages.getD []) } }

/-- The state touched by the two loaders. -/
structure LoadState where
  questions : List QuizQuestion := []
  originalQuestions : List QuizQuestion := []
  schoolScorecards : List ScorecardTemplate := []
  isLoadingQuestions : Bool := true
  isLoadingScorecards : Bool := false
  hasFetchedData : Bool := false
  consoleErrors : List String := []
deriving DecidableEq

/-- The freshly mounted state: empty sequence, questions loading. -/
def initialLoadState : LoadState := {}

/-- `fetchQuestions`: guarded by a present task id and the not-yet-fetched
flag; the fetch outcome is the `taskFetch` argument (`Except.error` for a
network failure, a non-ok response, or a body that fails to parse).  The
`catch` logs to the console and still sets `hasFetchedData`; the `finally`
clears `isLoadingQuestions` on every path through the guard, and the guard's
`else` clears it as well. -/
def fetchQuestionsRun (taskId : Option String)
    (taskFetch : Except String APITask)
    (availableScorecards : List ScorecardTemplate) (s : LoadState) :
    LoadState :=
  if taskId.isSome = true ∧ s.hasFetchedData = false then
    match taskFetch with
    | .ok data =>
      let s1 :=
        match data.questions with
        | some qsApi =>
          if 0 < qsApi.length then
            let updatedQuestions :=
              qsApi.map (mapAPIQuestion availableScorecards)
            { s with
                questions := updatedQuestions,
                originalQuestions := updatedQuestions }
          else s
        | none => s
      { s1 with hasFetchedData := true, isLoadingQuestions := false }
    | .error _ =>
      { s with
          consoleErrors :=
            s.consoleErrors ++ ["Error fetching quiz questions"],
          hasFetchedData := true,
          isLoadingQuestions := false }
  else { s with isLoadingQuestions := false }

/-- `fetchSchoolScorecards`: with an org id, sets the scorecards-loading
flag, fetches the scorecard list (`Except.error` for any throw before the
array check, `Except.ok none` for a non-array body), transforms and stores
it, then awaits the questions fetch; the `catch` only logs, and the
`finally` clears the scorecards-loading flag.  Without an org id it goes
straight to the questions fetch with an empty pool. -/
def fetchSchoolScorecardsRun (schoolId : Option Int)
    (scorecardsFetch : Except String (Option (List APIScorecard)))
    (taskId : Option String) (taskFetch : Except String APITask)
    (s : LoadState) : LoadState :=
  if schoolId.isSome = true then
    let s0 := { s with isLoadingScorecards := true }
    match scorecardsFetch with
    | .ok (some data) =>
      let transformed := data.map transformAPIScorecard
      let s1 := { s0 with schoolScorecards := transformed }
      let s2 := fetchQuestionsRun taskId taskFetch transformed s1
      { s2 with isLoadingScorecards := false }
    | .ok none =>
      let s2 := fetchQuestionsRun taskId taskFetch [] s0
      { s2 with isLoadingScorecards := false }
    | .error _ =>
      { s0 with
          consoleErrors :=
            s0.consoleErrors ++ ["Error fetching school scorecards"],
          isLoadingScorecards := false }
  else fetchQuestionsRun taskId taskFetch [] s

/-- C4 counterexample: when the org-scorecards fetch fails, the loader does
*not* mark loading complete — the questions fetch is never reached, so
`isLoadingQuestions` stays true and `hasFetchedData` stays false, contrary
to the claim that a failing load marks loading complete regardless. -/
theorem scorecards_failure_not_complete :
    (fetchSchoolScorecardsRun (some 1) (Except.error "network error")
        (some "task-1") (Except.ok ⟨none⟩)
        initialLoadState).isLoadingQuestions = true ∧
    (fetchSchoolScorecardsRun (some 1) (Except.error "network error")
        (some "task-1") (Except.ok ⟨none⟩)
        initialLoadState).hasFetchedData = false := by
  refine ⟨by decide, by decide⟩

/-- C4 amended: when the *task-questions* fetch fails, the core marks
loading complete (fetched flag set, questions-loading flag cleared), leaves
the question sequence empty and only appends a console diagnostic; when the
*org-scorecards* fetch fails, the failure is likewise only logged to the
console and the scorecards-loading flag is cleared, but the questions fetch
is skipped: the questions-loading flag keeps its prior value and the
fetched flag stays false.  In both cases the sequence stays empty and no
error escapes (the result is always a plain state). -/
theorem load_failure_effects (schoolId : Option Int)
    (taskId : Option String) (msg : String)
    (tRes : Except String APITask) (s : LoadState)
    (hq0 : s.questions = []) (hf0 : s.hasFetchedData = false)
    (hl0 : s.isLoadingScorecards = false) :
    (∀ scData : Option (List APIScorecard), taskId.isSome = true →
      (fetchSchoolScorecardsRun schoolId (.ok scData) taskId
          (.error msg) s).questions = [] ∧
      (fetchSchoolScorecardsRun schoolId (.ok scData) taskId
          (.error msg) s).hasFetchedData = true ∧
      (fetchSchoolScorecardsRun schoolId (.ok scData) taskId
          (.error msg) s).isLoadingQuestions = false ∧
      (fetchSchoolScorecardsRun schoolId (.ok scData) taskId
          (.error msg) s).isLoadingScorecards = false ∧
      (fetchSchoolScorecardsRun schoolId (.ok scData) taskId
          (.error msg) s).consoleErrors =
        s.consoleErrors ++ ["Error fetching quiz questions"]) ∧
    (schoolId.isSome = true →
      (fetchSchoolScorecardsRun schoolId (.error msg) taskId
          tRes s).questions = [] ∧
      (fetchSchoolScorecardsRun schoolId (.error msg) taskId
          tRes s).isLoadingQuestions = s.isLoadingQuestions ∧
      (fetchSchoolScorecardsRun schoolId (.error msg) taskId
          tRes s).hasFetchedData = false ∧
      (fetchSchoolScorecardsRun schoolId (.error msg) taskId
          tRes s).isLoadingScorecards = false ∧
      (fetchSchoolScorecardsRun schoolId (.error msg) taskId
          tRes s).consoleErrors =
        s.consoleErrors ++ ["Error fetching school scorecards"]) := by
  constructor
  · intro scData ht
    have hguard : taskId.isSome = true ∧ s.hasFetchedData = false := ⟨ht, hf0⟩
    cases hsch : schoolId.isSome with
    | true =>
      cases scData with
      | some data =>
        simp only [fetchSchoolScorecardsRun, hsch, if_true, if_pos,
          fetchQuestionsRun]
        rw [if_pos (by simpa using hguard)]
        simp [hq0]
      | none =>
        simp only [fetchSchoolScorecardsRun, hsch, if_true, if_pos,
          fetchQuestionsRun]
        rw [if_pos (by simpa using hguard)]
        simp [hq0]
    | false =>
      simp only [fetchSchoolScorecardsRun, hsch, Bool.false_eq_true, if_false,
        fetchQuestionsRun]
      rw [if_pos hguard]
      simp [hq0, hl0]
  · intro hsch
    simp only [fetchSchoolScorecardsRun, hsch, if_true, if_pos]
    simp [hq0, hf0]

/-- Witness for the amended C4 theorem: the task fetch fails after a
successful scorecards fetch, and separately the scorecards fetch fails. -/
theorem load_failure_effects_witness :
    (fetchSchoolScorecardsRun (some 1) (Except.ok (some []))
        (some "task-1") (Except.error "HTTP 500")
        initialLoadState).hasFetchedData = true ∧
    (fetchSchoolScorecardsRun (some 1) (Except.error "HTTP 500")
        (some "task-1") (Except.ok ⟨none⟩)
        initialLoadState).isLoadingQuestions =
      initialLoadState.isLoadingQuestions := by
  have h := load_failure_effects (some 1) (some "task-1") "HTTP 500"
    (Except.ok ⟨none⟩) initialLoadState rfl rfl rfl
  exact ⟨(h.1 (some []) rfl).2.1, (h.2 rfl).2.1⟩

/-- `syncLinkedScorecards`: a falsy (empty) source id returns early with no
update; otherwise every question whose scorecard has a *string* id equal to
the source id receives the supplied name/criteria (an absent argument keeps
the old value, and id/`new`/`is_template` are preserved); every other
question is returned as-is. -/
def syncLinkedScorecards (questions : List QuizQuestion) (sourceId : String)
    (newName : Option String)
    (newCriteria : Option (List ScorecardCriterion)) : List QuizQuestion :=
  if sourceId = "" then questions
  else
    questions.map fun question =>
      match question.config.scorecardData with
      | some sc =>
        match sc.id with
        | .str sid =>
          if sid = sourceId then
            { question with
                config :=
                  { question.config with
                      scorecardData := some
                        { sc with
                            name := newName.getD sc.name,
                            criteria := newCriteria.getD sc.criteria } } }
          else question
        | .num _ => question
      | none => question

/-- The claim's per-question update: exactly the questions whose scorecard
id is the string `sourceId` get the supplied name and criteria; every other
question is unchanged. -/
def syncSpecUpdate (sourceId : String) (newName : Option String)
    (newCriteria : Option (List ScorecardCriterion))
    (question : QuizQuestion) : QuizQuestion :=
  match question.config.scorecardData with
  | some sc =>
    if sc.id = .str sourceId then
      { question with
          config :=
            { question.config with
                scorecardData := some
                  { sc with
                      name := newName.getD sc.name,
                      criteria := newCriteria.getD sc.criteria } } }
    else question
  | none => question

/-- A question whose session scorecard has the empty string as id. -/
def emptyIdQuestion : QuizQuestion :=
  { id := "q1", content := [textBlock "Discuss justice."],
    config := { questionType := .subjective, responseType := "report",
                scorecardData := some (completedScorecard true (.str "")) } }

/-- C5 counterexample: with `sourceId = ""` the source returns early, so a
question whose scorecard id *is* the string `""` is left unchanged, while
the claim ("for every sourceId ...") requires its name/criteria to be
replaced. -/
theorem sync_empty_source_counterexample :
    syncLinkedScorecards [emptyIdQuestion] "" (some "Renamed") none =
      [emptyIdQuestion] ∧
    [syncSpecUpdate "" (some "Renamed") none emptyIdQuestion] ≠
      [emptyIdQuestion] := by
  refine ⟨by decide, by decide⟩

/-- C5 amended: for every *non-empty* sourceId, `syncLinked` replaces the
scorecard name/criteria of exactly those questions whose scorecardData has
a string id equal to sourceId, leaves every other question unchanged, and
never modifies a question whose scorecard id is numeric (published); an
empty sourceId is a no-op. -/
theorem sync_linked_scorecards_spec (questions : List QuizQuestion)
    (sourceId : String) (newName : Option String)
    (newCriteria : Option (List ScorecardCriterion))
    (h : sourceId ≠ "") :
    syncLinkedScorecards questions sourceId newName newCriteria =
      questions.map (syncSpecUpdate sourceId newName newCriteria) ∧
    (∀ q ∈ questions, ∀ n : Int,
      q.config.scorecardData.map (fun sc => sc.id) = some (.num n) →
      syncSpecUpdate sourceId newName newCriteria q = q) := by
  constructor
  · unfold syncLinkedScorecards
    rw [if_neg h]
    apply List.map_congr_left
    intro question _
    unfold syncSpecUpdate
    cases hsd : question.config.scorecardData with
    | none => rfl
    | some sc =>
      cases hid : sc.id with
      | str sid =>
        by_cases hs : sid = sourceId
        · simp [hid, hs]
        · simp [hid, hs]
      | num n => simp [hid]
  · intro q _ n hn
    unfold syncSpecUpdate
    cases hsd : q.config.scorecardData with
    | none => rfl
    | some sc =>
      rw [hsd] at hn
      simp only [Option.map_some'] at hn
      injection hn with hid
      simp [hid]

/-- A question linked to the session scorecard with string id "s1". -/
def linkedQuestion : QuizQuestion := refQ1

/-- A question holding a published scorecard with numeric id 7. -/
def publishedRefQuestion : QuizQuestion :=
  { id := "q3", content := [textBlock "Discuss truth."],
    config := { questionType := .subjective, responseType := "report",
                scorecardData := some
                  { id := .num 7, name := "Org rubric", new := false,
                    is_template := false,
                    criteria := [⟨"Depth", "Depth of analysis", 1, 5⟩] } } }

/-- Witness for the amended C5 theorem: the linked question is renamed, the
published-scorecard question is untouched. -/
theorem sync_linked_scorecards_spec_witness :
    (syncLinkedScorecards [linkedQuestion, publishedRefQuestion] "s1"
        (some "Renamed") none).map
      (fun q => q.config.scorecardData.map (fun sc => sc.name)) =
      [some "Renamed", some "Org rubric"] := by
  have h := sync_linked_scorecards_spec [linkedQuestion, publishedRefQuestion]
    "s1" (some "Renamed") none (by decide)
  rw [h.1]
  decide

/-- Fallback question used when reading the destination of a navigation
step; the component keeps `currentIndex` valid whenever the sequence is
non-empty, so under that invariant the fallback is never consulted. -/
def defaultQuizQuestion : QuizQuestion :=
  { id := "", content := [], config := {} }

/-- `goToPreviousQuestion`: only acts when `currentIndex > 0`; resets the
active tab to `question` exactly when it is invalid for the destination
question's type (scorecard on a non-subjective destination, answer on a
subjective destination), then decrements the index. -/
def goToPreviousQuestion (s : EditorState) : EditorState :=
  if 0 < s.currentQuestionIndex then
    let newIndex := s.currentQuestionIndex - 1
    let nextQuestion := (s.questions[newIndex]?).getD defaultQuizQuestion
    let tab :=
      if s.activeEditorTab = .scorecard ∧
          nextQuestion.config.questionType ≠ .subjective then Tab.question
      else if s.activeEditorTab = .answer ∧
          nextQuestion.config.questionType = .subjective then Tab.question
      else s.activeEditorTab
    { s with currentQuestionIndex := newIndex, activeEditorTab := tab }
  else s

/-- `goToNextQuestion`: only acts when `currentIndex < length - 1`, with the
same tab-validity reset as `goToPreviousQuestion`. -/
def goToNextQuestion (s : EditorState) : EditorState :=
  if s.currentQuestionIndex < s.questions.length - 1 then
    let newIndex := s.currentQuestionIndex + 1
    let nextQuestion := (s.questions[newIndex]?).getD defaultQuizQuestion
    let tab :=
      if s.activeEditorTab = .scorecard ∧
          nextQuestion.config.questionType ≠ .subjective then Tab.question
      else if s.activeEditorTab = .answer ∧
          nextQuestion.config.questionType = .subjective then Tab.question
      else s.activeEditorTab
    { s with currentQuestionIndex := newIndex, activeEditorTab := tab }
  else s

/-- The claim's tab rule on a navigation step: reset to `question` exactly
when the previous tab is invalid for the destination question's type. -/
def navTabSpec (tab : Tab) (dest : QuizQuestion) : Tab :=
  if (tab = .scorecard ∧ dest.config.questionType ≠ .subjective) ∨
      (tab = .answer ∧ dest.config.questionType = .subjective) then
    Tab.question
  else tab

theorem navTab_nested_eq_spec (tab : Tab) (dest : QuizQuestion) :
    (if tab = .scorecard ∧ dest.config.questionType ≠ .subjective then
        Tab.question
      else if tab = .answer ∧ dest.config.questionType = .subjective then
        Tab.question
      else tab) = navTabSpec tab dest := by
  unfold navTabSpec
  by_cases h1 : tab = .scorecard ∧ dest.config.questionType ≠ .subjective
  · simp [h1]
  · by_cases h2 : tab = .answer ∧ dest.config.questionType = .subjective
    · simp [h1, h2]
    · simp [h1, h2]

/-- C6: on a session with a non-empty sequence and a valid pointer,
navigation moves `currentIndex` by exactly one, clamped to `[0, length-1]`
with no wraparound (the boundary step is a no-op), never touches the
question sequence, and on a real move sets the active tab per the claim's
validity rule (scorecard invalid for non-subjective destinations, answer
invalid for subjective destinations, anything else preserved). -/
theorem navigate_spec (s : EditorState)
    (hne : s.questions ≠ [])
    (hidx : s.currentQuestionIndex < s.questions.length) :
    ((goToPreviousQuestion s).currentQuestionIndex =
        s.currentQuestionIndex - 1 ∧
      (goToPreviousQuestion s).currentQuestionIndex < s.questions.length ∧
      (goToPreviousQuestion s).questions = s.questions ∧
      (s.currentQuestionIndex = 0 → goToPreviousQuestion s = s) ∧
      (0 < s.currentQuestionIndex →
        (goToPreviousQuestion s).activeEditorTab =
          navTabSpec s.activeEditorTab
            ((s.questions[s.currentQuestionIndex - 1]?).getD
              defaultQuizQuestion))) ∧
    ((goToNextQuestion s).currentQuestionIndex =
        min (s.currentQuestionIndex + 1) (s.questions.length - 1) ∧
      (goToNextQuestion s).currentQuestionIndex < s.questions.length ∧
      (goToNextQuestion s).questions = s.questions ∧
      (s.currentQuestionIndex = s.questions.length - 1 →
        goToNextQuestion s = s) ∧
      (s.currentQuestionIndex < s.questions.length - 1 →
        (goToNextQuestion s).activeEditorTab =
          navTabSpec s.activeEditorTab
            ((s.questions[s.currentQuestionIndex + 1]?).getD
              defaultQuizQuestion))) := by
  have hlen : 0 < s.questions.length := List.length_pos.mpr hne
  constructor
  · by_cases h0 : 0 < s.currentQuestionIndex
    · unfold goToPreviousQuestion
      rw [if_pos h0]
      refine ⟨rfl, by simp; omega, rfl, by intro h; omega, fun _ => ?_⟩
      exact navTab_nested_eq_spec _ _
    · have h0e : s.currentQuestionIndex = 0 := by omega
      unfold goToPreviousQuestion
      rw [if_neg h0]
      exact ⟨by omega, hidx, rfl, fun _ => rfl, fun h => absurd h h0⟩
  · by_cases h1 : s.currentQuestionIndex < s.questions.length - 1
    · unfold goToNextQuestion
      rw [if_pos h1]
      refine ⟨by simp; omega, by simp; omega, rfl, by intro h; omega,
        fun _ => ?_⟩
      exact navTab_nested_eq_spec _ _
    · have h1e : s.currentQuestionIndex = s.questions.length - 1 := by omega
      unfold goToNextQuestion
      rw [if_neg h1]
      exact ⟨by omega, hidx, rfl, fun _ => rfl, fun h => absurd h h1⟩

/-- A two-question session sitting on the subjective second question with
the scorecard tab active. -/
def navState : EditorState :=
  { questions := fullyValidState.questions,
    currentQuestionIndex := 1,
    activeEditorTab := .scorecard }

/-- Witness for C6: stepping back from the subjective question to the
objective one both decrements the index and resets the scorecard tab to the
question tab. -/
theorem navigate_spec_witness :
    (goToPreviousQuestion navState).currentQuestionIndex = 0 ∧
    (goToPreviousQuestion navState).activeEditorTab = Tab.question ∧
    goToNextQuestion navState = navState := by
  have h := navigate_spec navState (by decide) (by decide)
  refine ⟨by rw [h.1.1]; decide, ?_, h.2.2.2.2.1 (by decide)⟩
  rw [h.1.2.2.2.2 (by decide)]
  decide

/-- `deleteQuestion`: with at most one question, clears the sequence
entirely; otherwise removes the question at `currentIndex` and, when the
index now points past the end, clamps it to the new last position. -/
def deleteQuestion (s : EditorState) : EditorState :=
  if s.questions.length ≤ 1 then { s with questions := [] }
  else
    let updatedQuestions := s.questions.eraseIdx s.currentQuestionIndex
    if updatedQuestions.length ≤ s.currentQuestionIndex then
      { s with
          questions := updatedQuestions,
          currentQuestionIndex := updatedQuestions.length - 1 }
    else { s with questions := updatedQuestions }

/-- C7: `remove` on a single-question session empties the sequence
entirely; on a session with more than one question and a valid pointer it
deletes exactly the question at the current index and sets `currentIndex`
to `min(currentIndex, newLength-1)`, leaving the pointer valid for the
non-empty resulting sequence. -/
theorem delete_question_spec (s : EditorState) :
    (s.questions.length = 1 → (deleteQuestion s).questions = []) ∧
    (1 < s.questions.length →
      s.currentQuestionIndex < s.questions.length →
      (deleteQuestion s).questions =
        s.questions.take s.currentQuestionIndex ++
          s.questions.drop (s.currentQuestionIndex + 1) ∧
      (deleteQuestion s).questions.length = s.questions.length - 1 ∧
      (deleteQuestion s).currentQuestionIndex =
        min s.currentQuestionIndex
          ((deleteQuestion s).questions.length - 1) ∧
      (deleteQuestion s).currentQuestionIndex <
        (deleteQuestion s).questions.length) := by
  constructor
  · intro h1
    unfold deleteQuestion
    rw [if_pos (by omega)]
  · intro hgt hidx
    unfold deleteQuestion
    rw [if_neg (by omega)]
    have herase : (s.questions.eraseIdx s.currentQuestionIndex).length =
        s.questions.length - 1 := by
      rw [List.length_eraseIdx]
      simp [hidx]
    have htake : s.questions.eraseIdx s.currentQuestionIndex =
        s.questions.take s.currentQuestionIndex ++
          s.questions.drop (s.currentQuestionIndex + 1) :=
      List.eraseIdx_eq_take_drop_succ s.questions s.currentQuestionIndex
    by_cases hc : (s.questions.eraseIdx s.currentQuestionIndex).length ≤
        s.currentQuestionIndex
    · rw [if_pos hc]
      refine ⟨htake, herase, ?_, ?_⟩
      · simp only [herase]
        omega
      · simp only [herase]
        omega
    · rw [if_neg hc]
      refine ⟨htake, herase, ?_, ?_⟩
      · simp only [herase]
        omega
      · simp only [herase]
        omega

/-- Witness for C7: deleting from a two-question session at the last index
leaves one question with the pointer clamped to 0, and deleting the only
question of a one-question session empties it. -/
theorem delete_question_spec_witness :
    (deleteQuestion navState).questions.length = 1 ∧
    (deleteQuestion navState).currentQuestionIndex = 0 ∧
    (deleteQuestion { navState with
        questions := [defaultQuizQuestion] }).questions = [] := by
  have h := (delete_question_spec navState).2 (by decide) (by decide)
  have h1 := (delete_question_spec { navState with
      questions := [defaultQuizQuestion] }).1 (by decide)
  refine ⟨?_, ?_, h1⟩
  · rw [h.2.1]
    decide
  · rw [h.2.2.1]
    decide

/-- A dropdown option: machine value and display label. -/
structure DropdownOption where
  value : String
  label : String
deriving DecidableEq

/-- Modelled from the spec: the selectable coding languages
(`codingLanguageOptions` lives in `dropdownOptions.ts`, which is not among
the sources).  Per the spec the set offers the exclusive whole-stack
languages, a markup language (HTML) and the styling language (CSS) that
depends on it, plus a plain scripting language. -/
def codingLanguageOptions : List DropdownOption :=
  [⟨"html", "HTML"⟩, ⟨"css", "CSS"⟩, ⟨"javascript", "JavaScript"⟩,
   ⟨"react", "React"⟩, ⟨"sql", "SQL"⟩, ⟨"python", "Python"⟩,
   ⟨"nodejs", "NodeJS"⟩]

/-- `handleCodingLanguageChange`: validates a multiselect selection.
Returns the stored (validated) selection and the transient notice, if
any. -/
def handleCodingLanguageChange (selectedOptions : List DropdownOption) :
    List DropdownOption × Option String :=
  let exclusiveLanguages := ["react", "sql", "python", "nodejs"]
  let exclusiveSelectedLanguages :=
    selectedOptions.filter (fun opt => exclusiveLanguages.contains opt.value)
  if 0 < exclusiveSelectedLanguages.length then
    match exclusiveSelectedLanguages.getLast? with
    | some lastExclusiveLanguage =>
      if 1 < selectedOptions.length then
        ([lastExclusiveLanguage],
          some (lastExclusiveLanguage.label ++
            " must be used alone. Other languages cannot be added along with it."))
      else (selectedOptions, none)
    | none => (selectedOptions, none)
  else
    let hasCSS := selectedOptions.any (fun opt => opt.value == "css")
    let hasHTML := selectedOptions.any (fun opt => opt.value == "html")
    if hasCSS = true ∧ hasHTML = false then
      match codingLanguageOptions.find? (fun opt => opt.value == "html") with
      | some htmlOption =>
        (selectedOptions ++ [htmlOption],
          some "HTML has been automatically selected because CSS requires HTML")
      | none => (selectedOptions, none)
    else (selectedOptions, none)

/-- The claim's exclusive languages. -/
def isExclusiveLanguage (opt : DropdownOption) : Bool :=
  opt.value == "react" || opt.value == "sql" || opt.value == "python" ||
    opt.value == "nodejs"

/-- The stored selection as the claim states it: more than one language
with at least one exclusive collapses to the last exclusive language in the
selection; otherwise css without html gets html appended; anything else is
stored unchanged. -/
def specLanguageSelection (sel : List DropdownOption) : List DropdownOption :=
  if 1 < sel.length ∧ sel.any isExclusiveLanguage = true then
    match sel.reverse.find? isExclusiveLanguage with
    | some lastExclusive => [lastExclusive]
    | none => sel
  else if sel.any isExclusiveLanguage = false ∧
      sel.any (fun o => o.value == "css") = true ∧
      sel.any (fun o => o.value == "html") = false then
    sel ++ [⟨"html", "HTML"⟩]
  else sel

theorem filter_head?_eq_find? {α : Type} (p : α → Bool) (l : List α) :
    (l.filter p).head? = l.find? p := by
  induction l with
  | nil => rfl
  | cons a l ih =>
    by_cases hp : p a = true
    · rw [List.filter_cons_of_pos hp, List.find?_cons_of_pos l hp]
      rfl
    · have hp' : p a = false := by
        cases hb : p a with
        | true => exact absurd hb hp
        | false => rfl
      rw [List.filter_cons_of_neg (by simp [hp']),
        List.find?_cons_of_neg l (by simp [hp'])]
      exact ih

theorem filter_getLast?_eq_reverse_find? {α : Type} (p : α → Bool)
    (l : List α) : (l.filter p).getLast? = l.reverse.find? p := by
  rw [← List.head?_reverse, ← List.filter_reverse, filter_head?_eq_find?]

theorem contains_exclusive_eq (opt : DropdownOption) :
    (["react", "sql", "python", "nodejs"] : List String).contains opt.value =
      isExclusiveLanguage opt := by
  simp [isExclusiveLanguage, List.contains, List.elem_cons]
  by_cases h1 : opt.value = "react" <;>
    by_cases h2 : opt.value = "sql" <;>
      by_cases h3 : opt.value = "python" <;>
        by_cases h4 : opt.value = "nodejs" <;>
          simp [h1, h2, h3, h4]

/-- C8: the coding-language handler applies the exclusivity rule exactly as
claimed — a selection of more than one language containing an exclusive
language collapses to the last exclusive language in the selection with a
notice; a selection with no exclusive language containing css but not html
gets html appended with a notice; any other selection is stored unchanged
with no notice. -/
theorem coding_language_exclusivity (sel : List DropdownOption) :
    (handleCodingLanguageChange sel).1 = specLanguageSelection sel ∧
    ((handleCodingLanguageChange sel).2.isSome = true ↔
      ((1 < sel.length ∧ sel.any isExclusiveLanguage = true) ∨
        (sel.any isExclusiveLanguage = false ∧
          sel.any (fun o => o.value == "css") = true ∧
          sel.any (fun o => o.value == "html") = false))) := by
  have hpred : (fun opt => (["react", "sql", "python", "nodejs"] :
      List String).contains opt.value) = isExclusiveLanguage :=
    funext fun opt => contains_exclusive_eq opt
  unfold handleCodingLanguageChange specLanguageSelection
  simp only [hpred]
  by_cases hex : sel.any isExclusiveLanguage = true
  · have hfil : sel.filter isExclusiveLanguage ≠ [] := by
      rw [Ne, List.filter_eq_nil_iff]
      simp only [List.any_eq_true] at hex
      obtain ⟨x, hx, hpx⟩ := hex
      intro hall
      exact absurd hpx (by simpa using hall x hx)
    have hlen : 0 < (sel.filter isExclusiveLanguage).length :=
      List.length_pos.mpr hfil
    rw [if_pos hlen]
    cases hl : (sel.filter isExclusiveLanguage).getLast? with
    | none => exact absurd (List.getLast?_eq_none_iff.mp hl) hfil
    | some lastExclusive =>
      have hlrev : sel.reverse.find? isExclusiveLanguage =
          some lastExclusive := by
        rw [← filter_getLast?_eq_reverse_find?]
        exact hl
      rw [hlrev]
      dsimp only
      by_cases hone : 1 < sel.length
      · rw [if_pos hone, if_pos ⟨hone, hex⟩]
        exact ⟨rfl, by simp [hone, hex]⟩
      · rw [if_neg hone,
          if_neg (show ¬ (1 < sel.length ∧
              sel.any isExclusiveLanguage = true) from fun hc => hone hc.1),
          if_neg (show ¬ (sel.any isExclusiveLanguage = false ∧
              sel.any (fun o => o.value == "css") = true ∧
              sel.any (fun o => o.value == "html") = false) from
            fun hc => by rw [hc.1] at hex; exact Bool.false_ne_true hex)]
        exact ⟨rfl, by simp [hone, hex]⟩
  · have hexf : sel.any isExclusiveLanguage = false := by
      cases hb : sel.any isExclusiveLanguage with
      | true => exact absurd hb hex
      | false => rfl
    have hfil : sel.filter isExclusiveLanguage = [] := by
      rw [List.filter_eq_nil_iff]
      intro a ha
      rw [List.any_eq_false] at hexf
      simpa using hexf a ha
    rw [if_neg (show ¬ 0 < (sel.filter isExclusiveLanguage).length by
        rw [hfil]; simp),
      if_neg (show ¬ (1 < sel.length ∧
          sel.any isExclusiveLanguage = true) from fun hc => hex hc.2)]
    by_cases hcss : (sel.any fun opt => opt.value == "css") = true ∧
        (sel.any fun opt => opt.value == "html") = false
    · rw [if_pos hcss]
      rw [show codingLanguageOptions.find? (fun opt => opt.value == "html") =
          some ⟨"html", "HTML"⟩ from rfl]
      dsimp only
      rw [if_pos (show sel.any isExclusiveLanguage = false ∧
          sel.any (fun o => o.value == "css") = true ∧
          sel.any (fun o => o.value == "html") = false from
        ⟨hexf, hcss.1, hcss.2⟩)]
      exact ⟨rfl, by simp [hexf, hcss.1, hcss.2]⟩
    · rw [if_neg hcss,
        if_neg (show ¬ (sel.any isExclusiveLanguage = false ∧
            sel.any (fun o => o.value == "css") = true ∧
            sel.any (fun o => o.value == "html") = false) from
          fun hc => hcss ⟨hc.2.1, hc.2.2⟩)]
      refine ⟨rfl, ?_⟩
      simp only [Option.isSome_none, Bool.false_eq_true, false_iff]
      rintro (⟨_, hx⟩ | ⟨_, hc1, hc2⟩)
      · exact hex hx
      · exact hcss ⟨hc1, hc2⟩

/-- In-place update of the element at an index (`arr[i] = {...arr[i], ...}`
on a copied array); out-of-range indices leave the list unchanged. -/
def listModify {α : Type} : List α → Nat → (α → α) → List α
  | [], _, _ => []
  | a :: rest, 0, f => f a :: rest
  | a :: rest, n + 1, f => a :: listModify rest n f

theorem listModify_getElem_same {α : Type} (l : List α) (i : Nat)
    (f : α → α) : (listModify l i f)[i]? = (l[i]?).map f := by
  induction l generalizing i with
  | nil => simp [listModify]
  | cons a rest ih =>
    cases i with
    | zero => simp [listModify]
    | succ n => simpa [listModify] using ih n

theorem listModify_getElem_other {α : Type} (l : List α) (i j : Nat)
    (f : α → α) (h : j ≠ i) : (listModify l i f)[j]? = l[j]? := by
  induction l generalizing i j with
  | nil => simp [listModify]
  | cons a rest ih =>
    cases i with
    | zero =>
      cases j with
      | zero => exact absurd rfl h
      | succ m => simp [listModify]
    | succ n =>
      cases j with
      | zero => simp [listModify]
      | succ m =>
        simpa [listModify] using ih n m (fun hc => h (by rw [hc]))

/-- A template heading block (the `props.level` presentation field is not
read by any embedded function and is omitted). -/
def tHeading (s : String) : Block :=
  { type := "heading", content := some [InlineItem.obj (some s)] }

/-- A template paragraph block. -/
def tPara (s : String) : Block :=
  { type := "paragraph", content := some [InlineItem.obj (some s)] }

/-- A template bullet list item, possibly with several styled text runs. -/
def tBullet (parts : List String) : Block :=
  { type := "bulletListItem",
    content := some (parts.map fun s => InlineItem.obj (some s)) }

/-- A template numbered list item. -/
def tNumbered (s : String) : Block :=
  { type := "numberedListItem", content := some [InlineItem.obj (some s)] }

/-- A template check list item. -/
def tCheckItem (s : String) : Block :=
  { type := "checkListItem", content := some [InlineItem.obj (some s)] }

/-- `getQuestionTemplateBlocks`: the canned starter document for a question
type.  Sections: common intro, answer types (omitted for coding),
programming languages (coding only), the editor-tabs explanation naming the
type-appropriate second tab, available block types, effective-question tips
(one bullet varying by type), and the preview/publish outro.  The nested
`children` of the example bullet are presentation-only and never read. -/
def getQuestionTemplateBlocks (questionType : QuestionType) : List Block :=
  let commonBlocks : List Block :=
    [tHeading "Welcome to the Question Editor!",
     tPara "This is where you will create your question. You can modify this template or remove it to start from scratch.",
     tPara "",
     tHeading "Question Types",
     tPara "You can select from these question types:",
     tBullet ["Objective", ": For questions with specific correct answers (multiple choice, true/false, etc.)"],
     tBullet ["Subjective", ": For questions that don\x27t have a single correct answer."],
     tBullet ["Coding", ": For questions that require learners to write code as their answer"],
     tPara ""]
  let answerTypeBlocks : List Block :=
    if questionType ≠ .coding then
      [tHeading "Answer Types",
       tPara "You can select from these answer types:",
       tBullet ["Text", ": Learners need to type their answer"],
       tBullet ["Audio", ": Learners need to record their answer"],
       tPara ""]
    else []
  let programmingLanguagesBlocks : List Block :=
    if questionType = .coding then
      [tHeading "Programming Languages",
       tPara "You should select the programming languages learners will use to answer the question. You can select multiple languages from the dropdown.",
       tPara ""]
    else []
  let tabsExplanationBlocks : List Block :=
    if questionType = .objective then
      [tHeading "Editor Tabs",
       tPara "The Question Editor has three tabs for this question type:",
       tBullet ["Question", ": (Current tab) Where you write the question text"],
       tBullet ["Correct Answer", ": Where you provide the expected answer for automatic evaluation"],
       tBullet ["AI Training", ": Where you can add knowledge base content to help AI evaluate learner responses"]]
    else if questionType = .subjective then
      [tHeading "Editor Tabs",
       tPara "The Question Editor has three tabs for this question type:",
       tBullet ["Question", ": (Current tab) Where you write the question text"],
       tBullet ["Scorecard", ": Where you define grading criteria for subjective responses"],
       tBullet ["AI Training", ": Where you can add knowledge base content to help AI evaluate learner responses"]]
    else
      [tHeading "Editor Tabs",
       tPara "The Question Editor has three tabs for this question type:",
       tBullet ["Question", ": (Current tab) Where you write the question text"],
       tBullet ["Correct Answer", ": Where you provide the expected code solution"],
       tBullet ["AI Training", ": Where you can add knowledge base content to help AI evaluate learner code solutions"]]
  let blockTypesBlocks : List Block :=
    [tHeading "Available Block Types",
     tPara "Here are some examples of the different types of blocks you can use:",
     tHeading "Headings (like this one)",
     tBullet ["Bullet lists (like this)"],
     tNumbered "Numbered lists (like this)",
     tCheckItem "Check lists (like this)",
     tPara "Regular paragraphs for your main content",
     tPara "Insert images/videos/audio clips by clicking the + icon on the left and selecting Image/Video/Audio",
     tPara "Insert code blocks by clicking the + icon on the left and selecting Code Block",
     tPara "",
     tHeading "Creating Nested Content",
     tPara "You can create nested content in two ways:",
     tBullet ["Using the Tab key: Simply press Tab while your cursor is on a block to indent it"],
     tBullet ["Using the side menu: Hover near the left edge of a block, click the menu icon (the button with 6 dots), and drag the block to the desired nested position inside another block"],
     tPara "",
     tPara "Here is an example of a nested list:",
     tBullet ["Main topic 1"],
     tPara ""]
  let effectiveQuestionsBlocks : List Block :=
    [tHeading "Writing Effective Questions",
     tPara "For best results:",
     tBullet ["Be clear and specific in your question text"]]
  let questionTypeTipsBlocks : List Block :=
    if questionType = .subjective then
      [tBullet ["Create a detailed scorecard with clear evaluation criteria or pick one of the templates already provided"]]
    else if questionType = .coding then
      [tBullet ["Provide a clear problem statement and any constraints or performance requirements"]]
    else
      [tBullet ["Make sure your correct answer is complete and matches the expected format"]]
  let previewPublishBlocks : List Block :=
    [tPara "",
     tHeading "Preview and Publishing",
     tPara "When you\x27re ready to test your quiz:",
     tBullet ["Preview Button", ": Lets you see and answer the question exactly as a learner will see it"],
     tBullet ["Publish Button", ": Makes the quiz available to learners. You can always edit and publish again"],
     tPara "",
     tPara "Delete this template when you are ready to create your own question!"]
  commonBlocks ++ answerTypeBlocks ++ programmingLanguagesBlocks ++
    tabsExplanationBlocks ++ [tPara ""] ++ blockTypesBlocks ++
    effectiveQuestionsBlocks ++ questionTypeTipsBlocks ++
    previewPublishBlocks

/-- `handleConfigChange`: a no-op on an empty sequence; merges the config
update into the active question; when asked to update the template (with a
new question type, in a draft), replaces the content with the freshly
synthesized template exactly when no current block carries an `id`
marker. -/
def handleConfigChange (status : String)
    (configUpdate : QuizQuestionConfig → QuizQuestionConfig)
    (updateTemplate : Bool) (newQuestionType : Option QuestionType)
    (s : EditorState) : EditorState :=
  if s.questions = [] then s
  else
    let updatedQuestions := listModify s.questions s.currentQuestionIndex
      (fun q => { q with config := configUpdate q.config })
    match newQuestionType with
    | some nt =>
      if updateTemplate = true ∧ status = "draft" then
        let currentContent :=
          ((updatedQuestions[s.currentQuestionIndex]?).getD
            defaultQuizQuestion).content
        if currentContent.any (fun block => block.hasId) = false then
          { s with
              questions := listModify updatedQuestions
                s.currentQuestionIndex
                (fun q => { q with content := getQuestionTemplateBlocks nt }) }
        else { s with questions := updatedQuestions }
      else { s with questions := updatedQuestions }
    | none => { s with questions := updatedQuestions }

/-- `handleQuestionTypeChange`: updates questionType, the derived
responseType (report for subjective, chat otherwise) and inputType (forced
to text for coding), asks `handleConfigChange` to refresh the template, and
forces the active tab back to the question tab. -/
def handleQuestionTypeChange (status : String)
    (newQuestionType : QuestionType) (s : EditorState) : EditorState :=
  let s1 := handleConfigChange status
    (fun c =>
      { c with
          questionType := newQuestionType,
          responseType :=
            if newQuestionType = .subjective then "report" else "chat",
          inputType :=
            if newQuestionType = .coding then "text" else c.inputType })
    true (some newQuestionType) s
  { s1 with activeEditorTab := .question }

/-- Whether `p` is a prefix of `s` (JavaScript `startsWith`). -/
def textStartsWith (s p : String) : Bool := p.data.isPrefixOf s.data

/-- Whether the document contains a bullet item whose text starts with the
given tab label. -/
def mentionsTabBullet (blocks : List Block) (label : String) : Bool :=
  blocks.any fun b =>
    b.type == "bulletListItem" && textStartsWith (blockText b) label

/-- C9: for a draft session, changing the question type updates the active
question's questionType, its derived responseType (report for subjective,
chat otherwise, with inputType forced to text for coding), forces the
active tab to the question tab, and replaces the content with the fresh
template for the new type exactly when no content block carries an `id`
marker (otherwise the content is untouched); every other question is left
unchanged, and the fresh template names the type-correct second tab in its
tab-explanation bullets (Scorecard for subjective, Correct Answer
otherwise). -/
theorem question_type_change_spec (s : EditorState) (nt : QuestionType)
    (q : QuizQuestion)
    (hq : s.questions[s.currentQuestionIndex]? = some q) :
    (handleQuestionTypeChange "draft" nt
        s).questions[s.currentQuestionIndex]? =
      some { q with
          content :=
            if q.content.any (fun b => b.hasId) = false then
              getQuestionTemplateBlocks nt
            else q.content,
          config :=
            { q.config with
                questionType := nt,
                responseType :=
                  if nt = .subjective then "report" else "chat",
                inputType :=
                  if nt = .coding then "text" else q.config.inputType } } ∧
    (handleQuestionTypeChange "draft" nt s).activeEditorTab = Tab.question ∧
    (∀ j : Nat, j ≠ s.currentQuestionIndex →
      (handleQuestionTypeChange "draft" nt s).questions[j]? =
        s.questions[j]?) ∧
    (mentionsTabBullet (getQuestionTemplateBlocks nt) "Scorecard" =
      decide (nt = .subjective)) ∧
    (mentionsTabBullet (getQuestionTemplateBlocks nt) "Correct Answer" =
      decide (nt ≠ .subjective)) := by
  have hne : s.questions ≠ [] := by
    intro h
    rw [h] at hq
    simp at hq
  have hTemplateS : mentionsTabBullet (getQuestionTemplateBlocks nt)
      "Scorecard" = decide (nt = .subjective) := by
    cases nt <;> decide
  have hTemplateA : mentionsTabBullet (getQuestionTemplateBlocks nt)
      "Correct Answer" = decide (nt ≠ .subjective) := by
    cases nt <;> decide
  unfold handleQuestionTypeChange handleConfigChange
  rw [if_neg hne]
  dsimp only
  rw [if_pos ⟨rfl, rfl⟩]
  have hSame := listModify_getElem_same s.questions s.currentQuestionIndex
    (fun p =>
      { p with
          config :=
            { p.config with
                questionType := nt,
                responseType :=
                  if nt = .subjective then "report" else "chat",
                inputType :=
                  if nt = .coding then "text" else p.config.inputType } })
  rw [hq, Option.map_some'] at hSame
  rw [hSame]
  dsimp only [Option.getD_some]
  by_cases hpr : q.content.any (fun b => b.hasId) = false
  · rw [if_pos hpr]
    refine ⟨?_, rfl, ?_, hTemplateS, hTemplateA⟩
    · rw [listModify_getElem_same, hSame, Option.map_some', if_pos hpr]
    · intro j hj
      rw [listModify_getElem_other _ _ _ _ hj,
        listModify_getElem_other _ _ _ _ hj]
  · rw [if_neg hpr]
    refine ⟨?_, rfl, ?_, hTemplateS, hTemplateA⟩
    · rw [hSame, if_neg hpr]
    · intro j hj
      rw [listModify_getElem_other _ _ _ _ hj]

set_option maxRecDepth 4000 in
/-- Witness for C9: on the concrete draft session (pristine template-free
content with no id markers), switching the first question to subjective
swaps in the subjective template, updates the derived fields and forces the
question tab. -/
theorem question_type_change_spec_witness :
    ((handleQuestionTypeChange "draft" .subjective
        fullyValidState).questions[0]?).map
      (fun q => (q.config.questionType, q.config.responseType, q.content)) =
      some (.subjective, "report",
        getQuestionTemplateBlocks .subjective) ∧
    (handleQuestionTypeChange "draft" .subjective
        fullyValidState).activeEditorTab = Tab.question := by
  have h := question_type_change_spec fullyValidState .subjective
    (fullyValidState.questions.get ⟨0, by decide⟩) (by decide)
  refine ⟨?_, h.2.1⟩
  rw [show fullyValidState.currentQuestionIndex = 0 from rfl] at h
  rw [h.1]
  decide
